import Mathlib

/-!
Shallow embedding of the `rust-api-client` repository: an `ApiClient` HTTP
abstraction with a client-credentials authentication layer
(`RestAuthRepository` / `AuthService`) built on top of it.

The repository ships the full source of `auth_repository.rs` and
`auth_service.rs`; the `ApiClient` implementation and the `AuthToken` model
are exercised only through their tests, so those two components are modelled
from the specification (each such definition carries a
`Modelled from the spec:` doc comment).
-/

namespace RustApiClient

/-- JSON values, the payloads exchanged over the HTTP boundary (the role
played by `serde_json::Value` in the source).  Objects keep their fields as
an ordered association list. -/
inductive Json where
  | null
  | bool (b : Bool)
  | num (n : Int)
  | str (s : String)
  | arr (elems : List Json)
  | obj (fields : List (String × Json))
deriving Repr

/-- HTTP methods supported by the client (the source supports exactly
GET/POST/PUT/DELETE). -/
inductive Method where
  | GET
  | POST
  | PUT
  | DELETE
deriving Repr, DecidableEq

/-- A request body: none (GET/DELETE), a JSON payload, or an ordered list of
form fields to be `application/x-www-form-urlencoded`. -/
inductive RequestBody where
  | empty
  | json (value : Json)
  | form (fields : List (String × String))
deriving Repr

/-- An outgoing HTTP request as assembled by the client: method, full URL,
ordered header list (duplicates allowed), body. -/
structure Request where
  method : Method
  url : String
  headers : List (String × String)
  body : RequestBody
deriving Repr

/-- An HTTP response delivered by the transport: status code and (parsed)
body. -/
structure HttpResponse where
  status : Nat
  body : Json
deriving Repr

/-- Modelled from the spec: the closed error taxonomy of section 7 —
(a) transport failure, (b) non-2xx status carrying status and body,
(c) response-decoding failure.  (The source uses a boxed dynamic error for
the same three conditions.) -/
inductive ApiError where
  | transport (message : String)
  | requestFailed (status : Nat) (body : Json)
  | decode (message : String)
deriving Repr

/-- Modelled from the spec: `ApiClient` owns a `base_url` and an optional
bearer `token`; no other state (`src/api/api_client.rs` is absent from the
sources, only its tests are present). -/
structure ApiClient where
  base_url : String
  token : Option String
deriving Repr

/-- Modelled from the spec: `ApiClient::new(base_url)` stores the base URL,
performs no validation, and configures no token. -/
def ApiClient.new (base_url : String) : ApiClient :=
  { base_url := base_url, token := none }

/-- Modelled from the spec: `with_token(token)` returns a client configured
to send `Authorization: Bearer <token>` on every subsequent request. -/
def ApiClient.with_token (c : ApiClient) (t : String) : ApiClient :=
  { c with token := some t }

/-- Drop one trailing slash character, if present. -/
def dropTrailingSlash (l : List Char) : List Char :=
  if l.getLast? = some '/' then l.dropLast else l

/-- Drop one leading slash character, if present. -/
def dropLeadingSlash (l : List Char) : List Char :=
  match l with
  | [] => []
  | c :: rest => if c = '/' then rest else c :: rest

/-- Modelled from the spec: path joining tolerates a base URL with or
without a trailing slash and a path with or without a leading slash,
producing exactly one separating slash. -/
def joinUrl (base path : String) : String :=
  String.mk (dropTrailingSlash base.data ++ '/' :: dropLeadingSlash path.data)

/-- The `Authorization: Bearer <token>` header list contributed by the
client's token: one entry when a token is configured, empty otherwise. -/
def bearerHeaders (token : Option String) : List (String × String) :=
  match token with
  | some t => [("Authorization", "Bearer " ++ t)]
  | none => []

/-- Modelled from the spec: headers are assembled in order — Authorization
first (if a token is set), then content-type (for bodies that require one),
then the caller-supplied extra headers added as-is, duplicates allowed. -/
def buildHeaders (c : ApiClient) (contentType : Option String)
    (extra : Option (List (String × String))) : List (String × String) :=
  bearerHeaders c.token ++
    (match contentType with
     | some v => [("Content-Type", v)]
     | none => []) ++
    extra.getD []

/-- Modelled from the spec: the request issued by `get_json(path,
extra_headers)` — GET to `base_url + path`, no content-type, no body. -/
def ApiClient.get_json_request (c : ApiClient) (path : String)
    (extra : Option (List (String × String))) : Request :=
  { method := .GET, url := joinUrl c.base_url path,
    headers := buildHeaders c none extra, body := .empty }

/-- Modelled from the spec: the request issued by `post_json` — POST with a
JSON body and content-type `application/json`. -/
def ApiClient.post_json_request (c : ApiClient) (path : String) (body : Json)
    (extra : Option (List (String × String))) : Request :=
  { method := .POST, url := joinUrl c.base_url path,
    headers := buildHeaders c (some "application/json") extra,
    body := .json body }

/-- Modelled from the spec: the request issued by `put_json` — PUT with a
JSON body and content-type `application/json`. -/
def ApiClient.put_json_request (c : ApiClient) (path : String) (body : Json)
    (extra : Option (List (String × String))) : Request :=
  { method := .PUT, url := joinUrl c.base_url path,
    headers := buildHeaders c (some "application/json") extra,
    body := .json body }

/-- Modelled from the spec: the request issued by `post_form` — POST with an
ordered list of form fields and content-type
`application/x-www-form-urlencoded`. -/
def ApiClient.post_form_request (c : ApiClient) (path : String)
    (fields : List (String × String))
    (extra : Option (List (String × String))) : Request :=
  { method := .POST, url := joinUrl c.base_url path,
    headers := buildHeaders c (some "application/x-www-form-urlencoded") extra,
    body := .form fields }

/-- Modelled from the spec: the request issued by `put_form` — PUT with form
fields and content-type `application/x-www-form-urlencoded`. -/
def ApiClient.put_form_request (c : ApiClient) (path : String)
    (fields : List (String × String))
    (extra : Option (List (String × String))) : Request :=
  { method := .PUT, url := joinUrl c.base_url path,
    headers := buildHeaders c (some "application/x-www-form-urlencoded") extra,
    body := .form fields }

/-- Modelled from the spec: the request issued by `delete_json` — DELETE
with no request body and no content-type. -/
def ApiClient.delete_json_request (c : ApiClient) (path : String)
    (extra : Option (List (String × String))) : Request :=
  { method := .DELETE, url := joinUrl c.base_url path,
    headers := buildHeaders c none extra, body := .empty }

/-- A status is a success exactly when it lies in the 2xx range. -/
def is2xx (status : Nat) : Bool :=
  200 ≤ status && status ≤ 299

/-- Modelled from the spec: response handling shared by every operation —
a transport failure becomes `ApiError.transport`, a non-2xx status becomes
`ApiError.requestFailed` carrying status and body, and a body that fails to
decode becomes `ApiError.decode`.  The transport is passed as an oracle
`Request → Except String HttpResponse` (the external HTTP library); the
decoder stands for the caller-chosen target type `T`. -/
def ApiClient.run {α : Type} (transport : Request → Except String HttpResponse)
    (decode : Json → Except String α) (req : Request) : Except ApiError α :=
  match transport req with
  | .error msg => .error (.transport msg)
  | .ok resp =>
    if is2xx resp.status then
      match decode resp.body with
      | .ok value => .ok value
      | .error msg => .error (.decode msg)
    else
      .error (.requestFailed resp.status resp.body)

/-- Modelled from the spec: `get_json(path, extra_headers) -> Result<T>`. -/
def ApiClient.get_json {α : Type} (c : ApiClient)
    (transport : Request → Except String HttpResponse)
    (decode : Json → Except String α) (path : String)
    (extra : Option (List (String × String))) : Except ApiError α :=
  ApiClient.run transport decode (c.get_json_request path extra)

/-- Modelled from the spec: `post_json(path, body, extra_headers)`. -/
def ApiClient.post_json {α : Type} (c : ApiClient)
    (transport : Request → Except String HttpResponse)
    (decode : Json → Except String α) (path : String) (body : Json)
    (extra : Option (List (String × String))) : Except ApiError α :=
  ApiClient.run transport decode (c.post_json_request path body extra)

/-- Modelled from the spec: `put_json(path, body, extra_headers)`. -/
def ApiClient.put_json {α : Type} (c : ApiClient)
    (transport : Request → Except String HttpResponse)
    (decode : Json → Except String α) (path : String) (body : Json)
    (extra : Option (List (String × String))) : Except ApiError α :=
  ApiClient.run transport decode (c.put_json_request path body extra)

/-- Modelled from the spec: `post_form(path, fields, extra_headers)`. -/
def ApiClient.post_form {α : Type} (c : ApiClient)
    (transport : Request → Except String HttpResponse)
    (decode : Json → Except String α) (path : String)
    (fields : List (String × String))
    (extra : Option (List (String × String))) : Except ApiError α :=
  ApiClient.run transport decode (c.post_form_request path fields extra)

/-- Modelled from the spec: `put_form(path, fields, extra_headers)`. -/
def ApiClient.put_form {α : Type} (c : ApiClient)
    (transport : Request → Except String HttpResponse)
    (decode : Json → Except String α) (path : String)
    (fields : List (String × String))
    (extra : Option (List (String × String))) : Except ApiError α :=
  ApiClient.run transport decode (c.put_form_request path fields extra)

/-- Modelled from the spec: `delete_json(path, extra_headers)`. -/
def ApiClient.delete_json {α : Type} (c : ApiClient)
    (transport : Request → Except String HttpResponse)
    (decode : Json → Except String α) (path : String)
    (extra : Option (List (String × String))) : Except ApiError α :=
  ApiClient.run transport decode (c.delete_json_request path extra)

/-- Modelled from the spec: the `AuthToken` data model (`src/models.rs` is
absent from the sources; its shape is fixed by section 3 of the spec and by
the literals in the tests) — `access_token` and `token_type` required,
`expires_in` (integer), `refresh_token` and `scope` optional. -/
structure AuthToken where
  access_token : String
  token_type : String
  expires_in : Option Int
  refresh_token : Option String
  scope : Option String
deriving Repr, DecidableEq

/-- First value bound to key `k` in a JSON object's field list. -/
def lookupField (fields : List (String × Json)) (k : String) : Option Json :=
  (fields.find? (fun kv => kv.1 = k)).map (fun kv => kv.2)

/-- A required string field: present with a string value, or an error. -/
def requiredStr (fields : List (String × Json)) (k : String) :
    Except String String :=
  match lookupField fields k with
  | some (.str s) => .ok s
  | some _ => .error ("invalid type: field " ++ k)
  | none => .error ("missing field " ++ k)

/-- An optional string field: absent (or null) decodes to `none`, a string
decodes to `some`, any other value is an error. -/
def optionalStr (fields : List (String × Json)) (k : String) :
    Except String (Option String) :=
  match lookupField fields k with
  | none => .ok none
  | some .null => .ok none
  | some (.str s) => .ok (some s)
  | some _ => .error ("invalid type: field " ++ k)

/-- An optional integer field: absent (or null) decodes to `none`, a number
decodes to `some`, any other value is an error. -/
def optionalInt (fields : List (String × Json)) (k : String) :
    Except String (Option Int) :=
  match lookupField fields k with
  | none => .ok none
  | some .null => .ok none
  | some (.num n) => .ok (some n)
  | some _ => .error ("invalid type: field " ++ k)

/-- Modelled from the spec: decoding an authentication response into an
`AuthToken` (the derived deserializer of the absent `src/models.rs`):
decoding succeeds only if `access_token` and `token_type` are present (with
string values); absent optional fields decode to `none`, never to an empty
string; unknown fields are ignored. -/
def decodeAuthToken (j : Json) : Except String AuthToken :=
  match j with
  | .obj fields => do
    let a ← requiredStr fields "access_token"
    let t ← requiredStr fields "token_type"
    let e ← optionalInt fields "expires_in"
    let r ← optionalStr fields "refresh_token"
    let s ← optionalStr fields "scope"
    pure { access_token := a, token_type := t, expires_in := e,
           refresh_token := r, scope := s }
  | _ => .error "invalid type: expected a JSON object"

/-- `RestAuthRepository` (from `src/repository/auth_repository.rs`): holds an
owned `ApiClient` and the configured `auth_path`. -/
structure RestAuthRepository where
  client : ApiClient
  auth_path : String

/-- `RestAuthRepository::new(base_url, auth_path)` (from
`src/repository/auth_repository.rs`): wraps `ApiClient::new(base_url)` and
stores the path.  No token is ever configured on this client. -/
def RestAuthRepository.new (base_url auth_path : String) : RestAuthRepository :=
  { client := ApiClient.new base_url, auth_path := auth_path }

/-- The `AuthForm` payload struct declared inside `authenticate` (from
`src/repository/auth_repository.rs`). -/
structure AuthForm where
  client_id : String
  client_secret : String

/-- The form fields `AuthForm` serializes to: the serializer emits struct
fields in declaration order, so the payload is the ordered pair list
`[(client_id, …), (client_secret, …)]`. -/
def AuthForm.fields (f : AuthForm) : List (String × String) :=
  [("client_id", f.client_id), ("client_secret", f.client_secret)]

/-- `RestAuthRepository::authenticate` (from
`src/repository/auth_repository.rs`): builds the `AuthForm` payload and
calls `self.client.post_form(&self.auth_path, &form, None)`, returning its
token on success and propagating its error (the `?` operator) otherwise. -/
def RestAuthRepository.authenticate (r : RestAuthRepository)
    (transport : Request → Except String HttpResponse)
    (client_id client_secret : String) : Except ApiError AuthToken :=
  let form : AuthForm := { client_id := client_id, client_secret := client_secret }
  match r.client.post_form transport decodeAuthToken r.auth_path form.fields none with
  | .ok tok => .ok tok
  | .error e => .error e

/-- `AuthService<R: AuthRepository>` (from `src/service/auth_service.rs`):
holds one owned value implementing the `AuthRepository` capability. -/
structure AuthService (R : Type) where
  repo : R

/-- `AuthService::new(repo)` (from `src/service/auth_service.rs`). -/
def AuthService.new {R : Type} (repo : R) : AuthService R :=
  { repo := repo }

/-- `AuthService::login(client_id, client_secret)` (from
`src/service/auth_service.rs`): `self.repo.authenticate(client_id,
client_secret).await` — a single call to the injected repository's
`authenticate`, whose result is returned as-is.  The trait method is passed
as an explicit dictionary `auth`; the monad `M` stands for the `async`
effect (instantiated with `Id` for pure runs and with a state monad to
observe the calls a repository receives). -/
def AuthService.login {M : Type → Type} {R E : Type}
    (auth : R → String → String → M (Except E AuthToken))
    (s : AuthService R) (client_id client_secret : String) :
    M (Except E AuthToken) :=
  auth s.repo client_id client_secret

/-- The test double of `src/service/auth_service_tests.rs`: a repository
that records every `(client_id, client_secret)` it is called with and then
returns a fixed response. -/
structure MockAuthRepo (E : Type) where
  response : Except E AuthToken

/-- `MockAuthRepo::authenticate`: push the arguments onto the call log, then
return the configured response. -/
def MockAuthRepo.authenticate {E : Type} (m : MockAuthRepo E)
    (client_id client_secret : String) :
    StateM (List (String × String)) (Except E AuthToken) :=
  fun calls => (m.response, calls ++ [(client_id, client_secret)])

/-- C1: for every pair of strings, `RestAuthRepository.authenticate` builds
the ordered form payload `[("client_id", client_id), ("client_secret",
client_secret)]` and delegates it to `ApiClient.post_form` on the configured
`auth_path` with no extra headers; the repository's client carries no token,
and the issued request carries no Authorization header. -/
theorem authenticate_builds_ordered_form_and_delegates
    (transport : Request → Except String HttpResponse)
    (base_url auth_path client_id client_secret : String) :
    (RestAuthRepository.new base_url auth_path).authenticate transport
        client_id client_secret
      = (ApiClient.new base_url).post_form transport decodeAuthToken auth_path
          [("client_id", client_id), ("client_secret", client_secret)] none
    ∧ (RestAuthRepository.new base_url auth_path).client.token = none
    ∧ ∀ v, ("Authorization", v) ∉
        ((ApiClient.new base_url).post_form_request auth_path
          [("client_id", client_id), ("client_secret", client_secret)]
          none).headers := by
  refine ⟨?_, rfl, ?_⟩
  · unfold RestAuthRepository.authenticate
    cases h : (RestAuthRepository.new base_url auth_path).client.post_form
        transport decodeAuthToken
        (RestAuthRepository.new base_url auth_path).auth_path
        (AuthForm.fields { client_id := client_id, client_secret := client_secret })
        none <;>
      simp [AuthForm.fields, RestAuthRepository.new] at h <;>
      simp [AuthForm.fields, RestAuthRepository.new, h]
  · intro v hv
    simp [ApiClient.post_form_request, buildHeaders, ApiClient.new,
      bearerHeaders, Option.getD] at hv

/-- Witness for C1 at concrete credentials: the delegation equation at
`id123`/`sec456` against a transport refusing the connection. -/
theorem authenticate_builds_ordered_form_and_delegates_witness :
    (RestAuthRepository.new "http://host" "/auth/login").authenticate
        (fun _ => .error "refused") "id123" "sec456"
      = (ApiClient.new "http://host").post_form (fun _ => .error "refused")
          decodeAuthToken "/auth/login"
          [("client_id", "id123"), ("client_secret", "sec456")] none
    ∧ (RestAuthRepository.new "http://host" "/auth/login").client.token = none :=
  ⟨(authenticate_builds_ordered_form_and_delegates (fun _ => .error "refused")
      "http://host" "/auth/login" "id123" "sec456").1,
   (authenticate_builds_ordered_form_and_delegates (fun _ => .error "refused")
      "http://host" "/auth/login" "id123" "sec456").2.1⟩

/-- C2: `AuthService.login` returns exactly the result produced by the
injected repository's `authenticate`, called on the same credentials — a
pure pass-through with no transformation at the service layer (for every
effect monad `M`, every repository type and every error type). -/
theorem login_is_pass_through_of_authenticate {M : Type → Type} {R E : Type}
    (auth : R → String → String → M (Except E AuthToken))
    (s : AuthService R) (client_id client_secret : String) :
    AuthService.login auth s client_id client_secret
      = auth s.repo client_id client_secret := rfl

/-- C3: a failure of the underlying `ApiClient.post_form` call is forwarded
by `RestAuthRepository.authenticate` unchanged (the very same `ApiError`
value), and a failure of any injected repository's `authenticate` is
forwarded by `AuthService.login` unchanged — no wrapping, no retry, no
substituted default. -/
theorem failures_propagate_unchanged
    (transport : Request → Except String HttpResponse)
    (r : RestAuthRepository) (client_id client_secret : String) (e : ApiError)
    (hpf : r.client.post_form transport decodeAuthToken r.auth_path
        [("client_id", client_id), ("client_secret", client_secret)] none
      = .error e) :
    r.authenticate transport client_id client_secret = .error e
    ∧ ∀ {R E : Type} (auth : R → String → String → Id (Except E AuthToken))
        (s : AuthService R) (cid cs : String) (err : E),
        auth s.repo cid cs = .error err →
        AuthService.login auth s cid cs = .error err := by
  constructor
  · unfold RestAuthRepository.authenticate
    simp only [AuthForm.fields]
    rw [hpf]
  · intro R E auth s cid cs err h
    simpa [AuthService.login] using h

/-- Witness for C3 at a concrete input: a transport that always refuses the
connection makes `authenticate` surface exactly that transport error. -/
theorem failures_propagate_unchanged_witness :
    (RestAuthRepository.new "http://host" "/auth/login").authenticate
        (fun _ => .error "connection refused") "id123" "sec456"
      = .error (.transport "connection refused") :=
  (failures_propagate_unchanged (fun _ => .error "connection refused")
    (RestAuthRepository.new "http://host" "/auth/login") "id123" "sec456"
    (.transport "connection refused") rfl).1

/-- C4: when the server answers with any non-2xx status,
`RestAuthRepository.authenticate` and `AuthService.login` (wired to the
production repository) both return an error — the request-failure error
carrying that status and body — and never a decoded value, regardless of
the body's shape. -/
theorem non_2xx_status_yields_error
    (transport : Request → Except String HttpResponse)
    (base_url auth_path client_id client_secret : String)
    (status : Nat) (body : Json)
    (hresp : ∀ req, transport req = .ok { status := status, body := body })
    (hstatus : is2xx status = false) :
    (RestAuthRepository.new base_url auth_path).authenticate transport
        client_id client_secret
      = .error (.requestFailed status body)
    ∧ AuthService.login (M := Id) (E := ApiError)
        (fun (r : RestAuthRepository) cid cs => r.authenticate transport cid cs)
        (AuthService.new (RestAuthRepository.new base_url auth_path))
        client_id client_secret
      = .error (.requestFailed status body) := by
  have h1 : (RestAuthRepository.new base_url auth_path).authenticate transport
      client_id client_secret = .error (.requestFailed status body) := by
    unfold RestAuthRepository.authenticate ApiClient.post_form ApiClient.run
    simp [hresp, hstatus]
  exact ⟨h1, h1⟩

/-- Witness for C4 at the spec's concrete scenario: a mock answering 401
with body `error: invalid_client` makes both layers fail for credentials
`bad`/`wrong`. -/
theorem non_2xx_status_yields_error_witness :
    (RestAuthRepository.new "http://host" "/auth/login").authenticate
        (fun _ => .ok { status := 401,
                        body := Json.obj [("error", Json.str "invalid_client")] })
        "bad" "wrong"
      = .error (.requestFailed 401 (Json.obj [("error", Json.str "invalid_client")]))
    ∧ AuthService.login (M := Id) (E := ApiError)
        (fun (r : RestAuthRepository) cid cs =>
          r.authenticate
            (fun _ => .ok { status := 401,
                            body := Json.obj [("error", Json.str "invalid_client")] })
            cid cs)
        (AuthService.new (RestAuthRepository.new "http://host" "/auth/login"))
        "bad" "wrong"
      = .error (.requestFailed 401 (Json.obj [("error", Json.str "invalid_client")])) :=
  non_2xx_status_yields_error
    (fun _ => .ok { status := 401,
                    body := Json.obj [("error", Json.str "invalid_client")] })
    "http://host" "/auth/login" "bad" "wrong" 401
    (Json.obj [("error", Json.str "invalid_client")])
    (fun _ => rfl) (by decide)

/-- The six requests a client can issue, one per public operation, all on
the same path/body/fields/extra-header arguments. -/
def clientRequests (c : ApiClient) (path : String) (body : Json)
    (fields : List (String × String))
    (extra : Option (List (String × String))) : List Request :=
  [c.get_json_request path extra,
   c.post_json_request path body extra,
   c.put_json_request path body extra,
   c.post_form_request path fields extra,
   c.put_form_request path fields extra,
   c.delete_json_request path extra]

/-- C5, counterexample: with no token configured, a caller-supplied extra
header named `Authorization` is added as-is, so the request does carry an
Authorization header — refuting "no Authorization header at all" as
universally stated over all extra-header lists. -/
theorem no_token_no_authorization_counterexample :
    (ApiClient.new "http://host").token = none
    ∧ ("Authorization", "sneaky")
        ∈ ((ApiClient.new "http://host").get_json_request "/x"
            (some [("Authorization", "sneaky")])).headers := by
  constructor
  · rfl
  · simp [ApiClient.get_json_request, buildHeaders, ApiClient.new,
      bearerHeaders]

/-- C5, amended: for every operation, a configured token puts
`Authorization: Bearer <token>` on the request whatever the extra headers
are; with no token configured, the client itself adds no Authorization
header — the request carries none whenever the caller-supplied extra
headers contain no Authorization entry. -/
theorem bearer_header_iff_token_configured
    (b t path : String) (body : Json) (fields : List (String × String))
    (extra : Option (List (String × String))) :
    (∀ req ∈ clientRequests { base_url := b, token := some t }
        path body fields extra,
      ("Authorization", "Bearer " ++ t) ∈ req.headers)
    ∧ ((∀ v, ("Authorization", v) ∉ extra.getD []) →
        ∀ req ∈ clientRequests { base_url := b, token := none }
          path body fields extra,
        ∀ v, ("Authorization", v) ∉ req.headers) := by
  constructor
  · intro req hreq
    simp only [clientRequests, List.mem_cons, List.not_mem_nil,
      or_false] at hreq
    rcases hreq with h | h | h | h | h | h <;> subst h <;>
      simp [ApiClient.get_json_request, ApiClient.post_json_request,
        ApiClient.put_json_request, ApiClient.post_form_request,
        ApiClient.put_form_request, ApiClient.delete_json_request,
        buildHeaders, bearerHeaders]
  · intro hextra req hreq v hv
    simp only [clientRequests, List.mem_cons, List.not_mem_nil,
      or_false] at hreq
    rcases hreq with h | h | h | h | h | h <;> subst h <;>
      simp [ApiClient.get_json_request, ApiClient.post_json_request,
        ApiClient.put_json_request, ApiClient.post_form_request,
        ApiClient.put_form_request, ApiClient.delete_json_request,
        buildHeaders, bearerHeaders] at hv <;>
      exact hextra v hv

/-- Witness for the amended C5 at concrete arguments, discharging the
Authorization-free-extras hypothesis of the no-token side at the empty
extra-header list. -/
theorem bearer_header_iff_token_configured_witness :
    (∀ req ∈ clientRequests { base_url := "http://host", token := some "token123" }
        "/secure" Json.null [] none,
      ("Authorization", "Bearer " ++ "token123") ∈ req.headers)
    ∧ ∀ req ∈ clientRequests { base_url := "http://host", token := none }
        "/secure" Json.null [] none,
      ∀ v, ("Authorization", v) ∉ req.headers :=
  ⟨(bearer_header_iff_token_configured "http://host" "token123" "/secure"
      Json.null [] none).1,
   (bearer_header_iff_token_configured "http://host" "token123" "/secure"
      Json.null [] none).2 (by simp)⟩

theorem dropTrailingSlash_of_no_slash {l : List Char}
    (h : l.getLast? ≠ some '/') : dropTrailingSlash l = l := by
  unfold dropTrailingSlash
  rw [if_neg h]

theorem dropTrailingSlash_concat (l : List Char) :
    dropTrailingSlash (l ++ ['/']) = l := by
  unfold dropTrailingSlash
  rw [List.getLast?_concat, if_pos rfl, List.dropLast_concat]

theorem dropLeadingSlash_cons (l : List Char) :
    dropLeadingSlash ('/' :: l) = l := by
  simp [dropLeadingSlash]

theorem dropLeadingSlash_of_no_slash {l : List Char}
    (h : l.head? ≠ some '/') : dropLeadingSlash l = l := by
  cases l with
  | nil => rfl
  | cons c rest =>
    have hc : c ≠ '/' := by
      intro heq
      exact h (by rw [List.head?_cons, heq])
    simp [dropLeadingSlash, hc]

/-- C6: for every base URL (given here without its optional trailing slash)
and every path (given without its optional leading slash), all four
slash combinations join to the same URL with exactly one separating slash;
in particular `ApiClient.new "http://host"` and `ApiClient.new
"http://host/"` both request `http://host/items/42` for path `/items/42`,
and every operation's request URL is exactly this join of `base_url` and
the path. -/
theorem join_url_single_separating_slash
    (base path : String)
    (hb : base.data.getLast? ≠ some '/')
    (hp : path.data.head? ≠ some '/') :
    (joinUrl base path = String.mk (base.data ++ '/' :: path.data)
      ∧ joinUrl (base ++ "/") path = String.mk (base.data ++ '/' :: path.data)
      ∧ joinUrl base ("/" ++ path) = String.mk (base.data ++ '/' :: path.data)
      ∧ joinUrl (base ++ "/") ("/" ++ path)
          = String.mk (base.data ++ '/' :: path.data))
    ∧ ((ApiClient.new "http://host").delete_json_request "/items/42" none).url
        = "http://host/items/42"
    ∧ ((ApiClient.new "http://host/").delete_json_request "/items/42" none).url
        = "http://host/items/42"
    ∧ ∀ (c : ApiClient) (p : String) (body : Json)
        (fields : List (String × String))
        (extra : Option (List (String × String))),
        ∀ req ∈ clientRequests c p body fields extra,
          req.url = joinUrl c.base_url p := by
  have hbase : (base ++ "/").data = base.data ++ ['/'] := by
    rw [String.data_append]
  have hpath : ("/" ++ path).data = '/' :: path.data := by
    rw [String.data_append]
    rfl
  refine ⟨⟨?_, ?_, ?_, ?_⟩, by decide, by decide, ?_⟩
  · unfold joinUrl
    rw [dropTrailingSlash_of_no_slash hb, dropLeadingSlash_of_no_slash hp]
  · unfold joinUrl
    rw [hbase, dropTrailingSlash_concat, dropLeadingSlash_of_no_slash hp]
  · unfold joinUrl
    rw [hpath, dropTrailingSlash_of_no_slash hb, dropLeadingSlash_cons]
  · unfold joinUrl
    rw [hbase, hpath, dropTrailingSlash_concat, dropLeadingSlash_cons]
  · intro c p body fields extra req hreq
    simp only [clientRequests, List.mem_cons, List.not_mem_nil,
      or_false] at hreq
    rcases hreq with h | h | h | h | h | h <;> subst h <;> rfl

/-- Witness for C6 at concrete slash-free parts `http://host` and
`items/42`. -/
theorem join_url_single_separating_slash_witness :
    (joinUrl "http://host" "items/42"
        = String.mk ("http://host".data ++ '/' :: "items/42".data)
      ∧ joinUrl ("http://host" ++ "/") "items/42"
        = String.mk ("http://host".data ++ '/' :: "items/42".data)
      ∧ joinUrl "http://host" ("/" ++ "items/42")
        = String.mk ("http://host".data ++ '/' :: "items/42".data)
      ∧ joinUrl ("http://host" ++ "/") ("/" ++ "items/42")
        = String.mk ("http://host".data ++ '/' :: "items/42".data))
    ∧ ((ApiClient.new "http://host").delete_json_request "/items/42" none).url
        = "http://host/items/42"
    ∧ ((ApiClient.new "http://host/").delete_json_request "/items/42" none).url
        = "http://host/items/42"
    ∧ ∀ (c : ApiClient) (p : String) (body : Json)
        (fields : List (String × String))
        (extra : Option (List (String × String))),
        ∀ req ∈ clientRequests c p body fields extra,
          req.url = joinUrl c.base_url p :=
  join_url_single_separating_slash "http://host" "items/42"
    (by decide) (by decide)

/-- C7: for every operation, the header list of the built request is —
in this order — the Authorization header first (when a token is set), then
the content-type header for bodies that require one, then the
caller-supplied extra headers exactly as given, in list order, duplicates
allowed; and whatever the extra headers contain, the client's Authorization
header is still present (an extra header never overwrites it). -/
theorem header_order_and_authorization_precedence
    (b t path : String) (body : Json) (fields : List (String × String))
    (es : List (String × String)) :
    ((ApiClient.mk b (some t)).get_json_request path (some es)).headers
        = ("Authorization", "Bearer " ++ t) :: es
    ∧ ((ApiClient.mk b (some t)).post_json_request path body (some es)).headers
        = ("Authorization", "Bearer " ++ t)
            :: ("Content-Type", "application/json") :: es
    ∧ ((ApiClient.mk b (some t)).put_json_request path body (some es)).headers
        = ("Authorization", "Bearer " ++ t)
            :: ("Content-Type", "application/json") :: es
    ∧ ((ApiClient.mk b (some t)).post_form_request path fields (some es)).headers
        = ("Authorization", "Bearer " ++ t)
            :: ("Content-Type", "application/x-www-form-urlencoded") :: es
    ∧ ((ApiClient.mk b (some t)).put_form_request path fields (some es)).headers
        = ("Authorization", "Bearer " ++ t)
            :: ("Content-Type", "application/x-www-form-urlencoded") :: es
    ∧ ((ApiClient.mk b (some t)).delete_json_request path (some es)).headers
        = ("Authorization", "Bearer " ++ t) :: es
    ∧ ((ApiClient.mk b none).post_json_request path body (some es)).headers
        = ("Content-Type", "application/json") :: es
    ∧ ∀ req ∈ clientRequests (ApiClient.mk b (some t)) path body fields (some es),
        ("Authorization", "Bearer " ++ t) ∈ req.headers := by
  refine ⟨rfl, rfl, rfl, rfl, rfl, rfl, rfl, ?_⟩
  intro req hreq
  simp only [clientRequests, List.mem_cons, List.not_mem_nil, or_false] at hreq
  rcases hreq with h | h | h | h | h | h <;> subst h <;>
    simp [ApiClient.get_json_request, ApiClient.post_json_request,
      ApiClient.put_json_request, ApiClient.post_form_request,
      ApiClient.put_form_request, ApiClient.delete_json_request,
      buildHeaders, bearerHeaders]

@[simp] theorem isOk_ok {ε α : Type} (a : α) :
    (Except.ok (ε := ε) a).isOk = true := rfl

@[simp] theorem isOk_error {ε α : Type} (e : ε) :
    (Except.error (α := α) e).isOk = false := rfl

@[simp] theorem pure_ok {ε α : Type} (a : α) :
    (pure a : Except ε α) = Except.ok a := rfl

@[simp] theorem ok_bind {ε α β : Type} (a : α) (f : α → Except ε β) :
    (Except.ok a >>= f) = f a := rfl

@[simp] theorem error_bind {ε α β : Type} (e : ε) (f : α → Except ε β) :
    ((Except.error e : Except ε α) >>= f) = Except.error e := rfl

/-- Witness for C7 at concrete arguments: the full header list of a GET
with token `token123` and one extra header. -/
theorem header_order_and_authorization_precedence_witness :
    ((ApiClient.mk "http://host" (some "token123")).get_json_request "/hello"
        (some [("X-Trace", "abc123")])).headers
      = ("Authorization", "Bearer " ++ "token123") :: [("X-Trace", "abc123")] :=
  (header_order_and_authorization_precedence "http://host" "token123" "/hello"
    Json.null [] [("X-Trace", "abc123")]).1

theorem requiredStr_isOk_iff (fields : List (String × Json)) (k : String) :
    (requiredStr fields k).isOk = true
      ↔ ∃ s, lookupField fields k = some (Json.str s) := by
  cases h : lookupField fields k with
  | none => simp [requiredStr, h]
  | some j => cases j <;> simp [requiredStr, h]

theorem optionalStr_isOk_iff (fields : List (String × Json)) (k : String) :
    (optionalStr fields k).isOk = true
      ↔ (lookupField fields k = none ∨ lookupField fields k = some Json.null
          ∨ ∃ s, lookupField fields k = some (Json.str s)) := by
  cases h : lookupField fields k with
  | none => simp [optionalStr, h]
  | some j => cases j <;> simp [optionalStr, h]

theorem optionalInt_isOk_iff (fields : List (String × Json)) (k : String) :
    (optionalInt fields k).isOk = true
      ↔ (lookupField fields k = none ∨ lookupField fields k = some Json.null
          ∨ ∃ n, lookupField fields k = some (Json.num n)) := by
  cases h : lookupField fields k with
  | none => simp [optionalInt, h]
  | some j => cases j <;> simp [optionalInt, h]

theorem optionalStr_of_absent (fields : List (String × Json)) (k : String)
    (h : lookupField fields k = none) : optionalStr fields k = .ok none := by
  simp [optionalStr, h]

theorem optionalInt_of_absent (fields : List (String × Json)) (k : String)
    (h : lookupField fields k = none) : optionalInt fields k = .ok none := by
  simp [optionalInt, h]

theorem decodeAuthToken_isOk_eq (fields : List (String × Json)) :
    (decodeAuthToken (Json.obj fields)).isOk
      = ((requiredStr fields "access_token").isOk
          && (requiredStr fields "token_type").isOk
          && (optionalInt fields "expires_in").isOk
          && (optionalStr fields "refresh_token").isOk
          && (optionalStr fields "scope").isOk) := by
  cases hA : requiredStr fields "access_token" <;>
  cases hT : requiredStr fields "token_type" <;>
  cases hE : optionalInt fields "expires_in" <;>
  cases hR : optionalStr fields "refresh_token" <;>
  cases hS : optionalStr fields "scope" <;>
  simp only [decodeAuthToken, hA, hT, hE, hR, hS, ok_bind, error_bind,
    isOk_ok, isOk_error, Bool.true_and, Bool.false_and, Bool.and_true,
    Bool.and_false] <;> rfl

theorem decodeAuthToken_ok_components (fields : List (String × Json))
    (t : AuthToken) (h : decodeAuthToken (Json.obj fields) = .ok t) :
    requiredStr fields "access_token" = .ok t.access_token
    ∧ requiredStr fields "token_type" = .ok t.token_type
    ∧ optionalInt fields "expires_in" = .ok t.expires_in
    ∧ optionalStr fields "refresh_token" = .ok t.refresh_token
    ∧ optionalStr fields "scope" = .ok t.scope := by
  cases hA : requiredStr fields "access_token" <;>
  cases hT : requiredStr fields "token_type" <;>
  cases hE : optionalInt fields "expires_in" <;>
  cases hR : optionalStr fields "refresh_token" <;>
  cases hS : optionalStr fields "scope" <;>
  simp only [decodeAuthToken, hA, hT, hE, hR, hS, ok_bind, error_bind,
    pure_ok, Except.ok.injEq] at h <;>
  first
  | exact absurd h (by simp)
  | (subst h; exact ⟨rfl, rfl, rfl, rfl, rfl⟩)

/-- C8, counterexample: mere presence of `access_token` and `token_type` is
not sufficient — with `access_token` bound to the number `1` both required
fields are present, yet decoding fails.  This refutes the claim's
"if" direction as stated. -/
theorem decode_presence_not_sufficient_counterexample :
    (lookupField [("access_token", Json.num 1), ("token_type", Json.str "Bearer")]
        "access_token").isSome = true
    ∧ (lookupField [("access_token", Json.num 1), ("token_type", Json.str "Bearer")]
        "token_type").isSome = true
    ∧ (decodeAuthToken (Json.obj [("access_token", Json.num 1),
        ("token_type", Json.str "Bearer")])).isOk = false :=
  ⟨rfl, rfl, rfl⟩

/-- C8, amended: decoding an authentication response succeeds iff
`access_token` and `token_type` are present with string values and every
present optional field has its declared type (absent and `null` optional
fields are both fine); and any optional field absent from the object decodes
to `none` — a not-present value, never an empty string. -/
theorem decode_auth_token_characterization (fields : List (String × Json)) :
    ((decodeAuthToken (Json.obj fields)).isOk = true
      ↔ ((∃ s, lookupField fields "access_token" = some (Json.str s))
        ∧ (∃ s, lookupField fields "token_type" = some (Json.str s))
        ∧ (lookupField fields "expires_in" = none
            ∨ lookupField fields "expires_in" = some Json.null
            ∨ ∃ n, lookupField fields "expires_in" = some (Json.num n))
        ∧ (lookupField fields "refresh_token" = none
            ∨ lookupField fields "refresh_token" = some Json.null
            ∨ ∃ s, lookupField fields "refresh_token" = some (Json.str s))
        ∧ (lookupField fields "scope" = none
            ∨ lookupField fields "scope" = some Json.null
            ∨ ∃ s, lookupField fields "scope" = some (Json.str s))))
    ∧ ∀ t, decodeAuthToken (Json.obj fields) = .ok t →
        (lookupField fields "expires_in" = none → t.expires_in = none)
        ∧ (lookupField fields "refresh_token" = none → t.refresh_token = none)
        ∧ (lookupField fields "scope" = none → t.scope = none) := by
  constructor
  · rw [decodeAuthToken_isOk_eq]
    simp only [Bool.and_eq_true, requiredStr_isOk_iff, optionalInt_isOk_iff,
      optionalStr_isOk_iff, and_assoc]
  · intro t ht
    obtain ⟨-, -, hE, hR, hS⟩ := decodeAuthToken_ok_components fields t ht
    refine ⟨?_, ?_, ?_⟩ <;> intro habs
    · have h0 := optionalInt_of_absent fields "expires_in" habs
      rw [hE] at h0
      exact Except.ok.inj h0
    · have h0 := optionalStr_of_absent fields "refresh_token" habs
      rw [hR] at h0
      exact Except.ok.inj h0
    · have h0 := optionalStr_of_absent fields "scope" habs
      rw [hS] at h0
      exact Except.ok.inj h0

/-- Witness for the amended C8: a response holding only the two required
fields decodes successfully, and its absent `refresh_token` decodes to a
not-present value. -/
theorem decode_auth_token_characterization_witness :
    (decodeAuthToken (Json.obj [("access_token", Json.str "abc123"),
        ("token_type", Json.str "Bearer")])).isOk = true
    ∧ ({ access_token := "abc123", token_type := "Bearer", expires_in := none,
         refresh_token := none, scope := none } : AuthToken).refresh_token
        = none :=
  ⟨(decode_auth_token_characterization
      [("access_token", Json.str "abc123"), ("token_type", Json.str "Bearer")]).1.mpr
      ⟨⟨"abc123", rfl⟩, ⟨"Bearer", rfl⟩, Or.inl rfl, Or.inl rfl, Or.inl rfl⟩,
   ((decode_auth_token_characterization
      [("access_token", Json.str "abc123"), ("token_type", Json.str "Bearer")]).2
      _ rfl).2.1 rfl⟩

/-- C9: `with_token` changes only the token field — the resulting client
keeps the original `base_url` and gets exactly the given bearer token; a
fresh client stores the given base URL with no token.  (In this pure
embedding no other operation yields a modified client at all.) -/
theorem with_token_changes_only_token (c : ApiClient) (t : String) :
    (c.with_token t).base_url = c.base_url
    ∧ (c.with_token t).token = some t
    ∧ ∀ base, (ApiClient.new base).base_url = base
        ∧ (ApiClient.new base).token = none :=
  ⟨rfl, rfl, fun _ => ⟨rfl, rfl⟩⟩

/-- C10: `login` performs exactly the one `authenticate` call of the
injected repository — in any effect monad its behaviour is exactly that of
`authenticate` on the verbatim credentials, and running it against the
call-recording test double appends exactly one entry, `(client_id,
client_secret)` in that order, to the call log while returning the double's
configured response. -/
theorem login_calls_authenticate_exactly_once {M : Type → Type} {R E F : Type}
    (auth : R → String → String → M (Except E AuthToken))
    (s : AuthService R) (resp : Except F AuthToken)
    (client_id client_secret : String) (log : List (String × String)) :
    AuthService.login auth s client_id client_secret
      = auth s.repo client_id client_secret
    ∧ AuthService.login MockAuthRepo.authenticate
        (AuthService.new { response := resp }) client_id client_secret log
      = (resp, log ++ [(client_id, client_secret)]) :=
  ⟨rfl, rfl⟩

end RustApiClient
